import Mathlib

/-!
Shallow embedding of floki (a development-container launcher) sufficient to
settle the specification claims. The embedding follows `src/main.rs`; the
collaborator modules that `main.rs` calls into (environment discovery, config
parsing, spec construction, image pulling, container execution) are not part
of the provided sources, so they appear as oracle functions, and the
components the spec describes but whose code is absent (Config Model image
validation, Volume Resolution) are modelled from the spec's words, as marked
on each definition.
-/

namespace Floki

/-- Rust `log::LevelFilter` values used by `configure_logging`. -/
inductive LevelFilter where
  | Warn
  | Info
  | Debug
  | Trace
deriving DecidableEq, Repr

/-- Failure of `simplelog::TermLogger::init` (an external collaborator). -/
inductive LoggerInitError where
  | SetLoggerError
deriving DecidableEq, Repr

/-- The error taxonomy: `errors::FlokiUserError::InvalidVerbositySetting` is
the one error constructed in `main.rs`; the remaining constructors model the
taxonomy of spec section 7 for errors produced by the collaborator modules.
`ContainerExit` models (from the spec, section 4.6) a launched container
finishing with a non-zero exit code, carrying that code. -/
inductive FlokiError where
  | ConfigNotFound (path : String)
  | ConfigParse (message : String)
  | ConfigValidation (message : String)
  | VolumeConflict (container_path : String)
  | VolumeHostPathMissing (host_path : String)
  | UnresolvedVariable (name : String)
  | InvalidVerbositySetting (setting : Nat)
  | LoggerInit (e : LoggerInitError)
  | ImageResolution (message : String)
  | RuntimeInvocation (message : String)
  | ContainerExit (code : Nat)
deriving DecidableEq, Repr

/-- The ambient process state read by `append_global_config`:
the `HOME` environment variable (`env::var("HOME")`, `none` when unset or
invalid), `Path::exists`, and `fs::read_to_string` (`none` on a read error). -/
structure AppendEnv where
  home : Option String
  file_exists : String → Bool
  read_to_string : String → Option String

/-- Embedding of `append_global_config` (`src/main.rs` lines 88-107): if
`HOME` is set and `$HOME/.floki/startup.sh` exists and reads successfully,
prepend its trimmed contents to the command joined by " && "; in every other
case return the command unchanged. -/
def append_global_config (aenv : AppendEnv) (command : String) : String :=
  match aenv.home with
  | none => command
  | some home =>
    let filepath := home ++ "/.floki/startup.sh"
    if aenv.file_exists filepath then
      match aenv.read_to_string filepath with
      | some contents => contents.trim ++ " && " ++ command
      | none => command
    else
      command

/-- Lifts the external logger initialisation outcome into the function result,
as the trailing `?` on `simplelog::TermLogger::init` does in `main.rs`. -/
def finish_logging : Option LoggerInitError → Except FlokiError Unit
  | some e => Except.error (FlokiError.LoggerInit e)
  | none => Except.ok ()

/-- Embedding of `configure_logging` (`src/main.rs` lines 110-129): map the
verbosity to a log level (0 Warn, 1 Info, 2 Debug, 3 Trace), fail with
`InvalidVerbositySetting` carrying the verbosity otherwise, then initialise
the terminal logger (an external effect, passed in as `init`). -/
def configure_logging (init : LevelFilter → Option LoggerInitError)
    (verbosity : Nat) : Except FlokiError Unit :=
  match verbosity with
  | 0 => finish_logging (init LevelFilter.Warn)
  | 1 => finish_logging (init LevelFilter.Info)
  | 2 => finish_logging (init LevelFilter.Debug)
  | 3 => finish_logging (init LevelFilter.Trace)
  | v + 4 => Except.error (FlokiError.InvalidVerbositySetting (v + 4))

/-- The subcommands of the CLI (`cli.rs` is not among the provided sources;
the constructors are those matched in `run_floki_from_args`). -/
inductive Subcommand where
  | Pull
  | Run (command : List String)
  | Completion (shell : String)
deriving DecidableEq, Repr

/-- The parsed command line as consumed by `main` and `run_floki_from_args`:
verbosity count, the deprecated `--local` flag, the config-file override, and
the optional subcommand. -/
structure Cli where
  verbosity : Nat
  local_flag : Bool
  config_file : Option String
  subcommand : Option Subcommand

/-- The spec's ProjectEnvironment (section 3): resolved config file path,
project root, and the invoking working directory. `main.rs` reads only
`config_file`; `environment.rs` is not among the provided sources. -/
structure ProjectEnvironment where
  config_file : String
  floki_root : String
  current_directory : String
deriving DecidableEq, Repr

/-- The collaborator modules called by `run_floki_from_args` whose sources are
not provided, each as a function: `Environment::gather`,
`FlokiConfig::from_file`, `config.shell.inner_shell()`,
`interpret::command_in_shell`, `config.image.name()`, `image::pull_image`,
`spec::FlokiSpec::from`, and `interpret::run_floki_container`. `C` is the
type of parsed configs, `S` the type of launch specifications. -/
structure Oracle (C S : Type) where
  gather : Option String → Except FlokiError ProjectEnvironment
  from_file : String → Except FlokiError C
  inner_shell : C → String
  command_in_shell : String → List String → String
  image_name : C → Except FlokiError String
  pull_image : String → Except FlokiError Unit
  spec_from : C → ProjectEnvironment → Except FlokiError S
  run_floki_container : S → String → Except FlokiError Unit

/-- Observable effects of one invocation: an image pull, the construction of a
launch specification (`spec::FlokiSpec::from` being invoked), a container run
(`interpret::run_floki_container` being invoked, with its arguments), and
shell-completion generation. -/
inductive Event (S : Type) where
  | PulledImage (name : String)
  | BuiltSpec
  | RanContainer (spec : S) (command : String)
  | GenCompletions

/-- Embedding of `run_floki_from_args` (`src/main.rs` lines 41-84), returning
the `Result` together with the trace of observable effects. `?` on a failing
call short-circuits with that error and no further effects. -/
def run_floki_from_args {C S : Type} (o : Oracle C S) (aenv : AppendEnv)
    (args : Cli) : Except FlokiError Unit × List (Event S) :=
  match args.subcommand with
  | some Subcommand.Pull =>
    match o.gather args.config_file with
    | Except.error e => (Except.error e, [])
    | Except.ok env =>
      match o.from_file env.config_file with
      | Except.error e => (Except.error e, [])
      | Except.ok config =>
        match o.image_name config with
        | Except.error e => (Except.error e, [])
        | Except.ok name => (o.pull_image name, [Event.PulledImage name])
  | some (Subcommand.Run command) =>
    match o.gather args.config_file with
    | Except.error e => (Except.error e, [])
    | Except.ok env =>
      match o.from_file env.config_file with
      | Except.error e => (Except.error e, [])
      | Except.ok config =>
        let inner_command := o.command_in_shell (o.inner_shell config) command
        let inner_command := append_global_config aenv inner_command
        match o.spec_from config env with
        | Except.error e => (Except.error e, [Event.BuiltSpec])
        | Except.ok s =>
          (o.run_floki_container s inner_command,
           [Event.BuiltSpec, Event.RanContainer s inner_command])
  | some (Subcommand.Completion _) => (Except.ok (), [Event.GenCompletions])
  | none =>
    match o.gather args.config_file with
    | Except.error e => (Except.error e, [])
    | Except.ok env =>
      match o.from_file env.config_file with
      | Except.error e => (Except.error e, [])
      | Except.ok config =>
        let inner_command := o.inner_shell config
        let inner_command := append_global_config aenv inner_command
        match o.spec_from config env with
        | Except.error e => (Except.error e, [Event.BuiltSpec])
        | Except.ok s =>
          (o.run_floki_container s inner_command,
           [Event.BuiltSpec, Event.RanContainer s inner_command])

/-- Embedding of `main` (`src/main.rs` lines 26-38), abstracted to its
observable outcome: the process exit code and the number of error-diagnostic
lines printed. A `configure_logging` failure propagates out of `main` via `?`
(the runtime prints the error and exits 1); an error from
`run_floki_from_args` is printed as one `error!` line followed by
`std::process::exit(1)`; success exits 0 with no diagnostic. -/
def floki_main {C S : Type} (o : Oracle C S)
    (init : LevelFilter → Option LoggerInitError) (aenv : AppendEnv)
    (args : Cli) : Nat × Nat :=
  match configure_logging init args.verbosity with
  | Except.error _ => (1, 1)
  | Except.ok _ =>
    match (run_floki_from_args o aenv args).1 with
    | Except.ok _ => (0, 0)
    | Except.error _ => (1, 1)

/-- Modelled from the spec: a raw volume declaration from the config file
(`volumes.rs`/`config.rs` are not among the provided sources) — host path
(possibly relative), container path, read-only marking (mode defaults to
read-write), and the switch override flag (spec sections 3, 4.3, glossary). -/
structure RawVolume where
  host_path : String
  container_path : String
  readonly : Bool
  switch : Bool
deriving DecidableEq, Repr

/-- Modelled from the spec: a resolved VolumeMount (spec section 3) —
absolute host path, container path, and access mode. -/
structure VolumeMount where
  host : String
  container : String
  readonly : Bool
deriving DecidableEq, Repr

/-- A path is absolute when it starts at the filesystem root. -/
def is_absolute (p : String) : Bool := p.startsWith "/"

/-- Modelled from the spec (section 4.3, step a): resolve a relative host
path against the project root, leaving absolute host paths unchanged. -/
def resolve_host (root : String) (p : String) : String :=
  if is_absolute p then p else root ++ "/" ++ p

/-- Modelled from the spec: resolve one declaration into a VolumeMount
(section 4.3 steps a and c). -/
def resolve_volume (root : String) (v : RawVolume) : VolumeMount :=
  { host := resolve_host root v.host_path
    container := v.container_path
    readonly := v.readonly }

/-- Modelled from the spec (section 4.3, step d): append a resolved mount,
detecting container-path collisions — a colliding declaration with switch
enabled replaces the earlier mount (last declared wins), and a collision
without switch is a hard `VolumeConflictError`. -/
def insert_volume (acc : List VolumeMount) (m : VolumeMount) (sw : Bool) :
    Except FlokiError (List VolumeMount) :=
  if acc.any (fun a => a.container == m.container) then
    if sw then
      Except.ok (acc.filter (fun a => a.container != m.container) ++ [m])
    else
      Except.error (FlokiError.VolumeConflict m.container)
  else
    Except.ok (acc ++ [m])

/-- Worker for `resolve_volumes`: fold the declarations in order. -/
def resolve_volumes_go (root : String) (acc : List VolumeMount) :
    List RawVolume → Except FlokiError (List VolumeMount)
  | [] => Except.ok acc
  | v :: rest =>
    match insert_volume acc (resolve_volume root v) v.switch with
    | Except.error e => Except.error e
    | Except.ok acc2 => resolve_volumes_go root acc2 rest

/-- Modelled from the spec: Volume Resolution (section 4.3) — given the
project root and the ordered raw declarations, produce the ordered
conflict-checked VolumeMount sequence or fail. -/
def resolve_volumes (root : String) (vols : List RawVolume) :
    Except FlokiError (List VolumeMount) :=
  resolve_volumes_go root [] vols

/-- Modelled from the spec: Volume Resolution anchored at a
ProjectEnvironment — it consumes only the project root (section 8: path
resolution is anchored to project root, not the working directory). -/
def resolve_volumes_env (env : ProjectEnvironment) (vols : List RawVolume) :
    Except FlokiError (List VolumeMount) :=
  resolve_volumes env.floki_root vols

/-- Modelled from the spec: the raw image section of a parsed config file
before validation — an optional pull reference and an optional build context
(spec sections 3, 4.2, 6). -/
structure RawImage where
  pull_reference : Option String
  build_context : Option String
deriving DecidableEq, Repr

/-- Modelled from the spec: a validated image reference resolving to exactly
one of pull-by-reference or build-from-context (spec section 3, Config
invariant). -/
inductive ImageSpec where
  | pull (reference : String)
  | build (context : String)
deriving DecidableEq, Repr

/-- Modelled from the spec: Config Model image validation (section 4.2) — a
pure function rejecting a config that specifies both a pull image and a build
context (and one that specifies neither) with a `ConfigValidationError`. -/
def validate_image : RawImage → Except FlokiError ImageSpec
  | ⟨some r, none⟩ => Except.ok (ImageSpec.pull r)
  | ⟨none, some b⟩ => Except.ok (ImageSpec.build b)
  | ⟨some _, some _⟩ =>
    Except.error (FlokiError.ConfigValidation
      "config specifies both a pull image and a build context")
  | ⟨none, none⟩ =>
    Except.error (FlokiError.ConfigValidation
      "config specifies neither a pull image nor a build context")

/-! Concrete fixtures used to evaluate the embedding at explicit inputs. -/

/-- A process state with `HOME` set and a readable startup script. -/
def startupEnv : AppendEnv :=
  { home := some "/home/u"
    file_exists := fun p => p == "/home/u/.floki/startup.sh"
    read_to_string := fun p =>
      if p == "/home/u/.floki/startup.sh" then some "  . /etc/profile \n" else none }

/-- A process state with `HOME` unset. -/
def noHomeEnv : AppendEnv :=
  { home := none
    file_exists := fun _ => false
    read_to_string := fun _ => none }

/-- A process state with `HOME` set and no startup script on disk. -/
def missingFileEnv : AppendEnv :=
  { home := some "/home/u"
    file_exists := fun _ => false
    read_to_string := fun _ => none }

/-- A process state where the startup script exists but reading it fails. -/
def unreadableEnv : AppendEnv :=
  { home := some "/home/u"
    file_exists := fun p => p == "/home/u/.floki/startup.sh"
    read_to_string := fun _ => none }

/-- Collaborators that all succeed, over `Nat` configs and `Nat` specs. -/
def okOracle : Oracle Nat Nat :=
  { gather := fun _ => Except.ok
      { config_file := "/proj/floki.yaml"
        floki_root := "/proj"
        current_directory := "/proj/sub" }
    from_file := fun _ => Except.ok 7
    inner_shell := fun _ => "bash"
    command_in_shell := fun sh cmd => sh ++ " -c " ++ String.intercalate " " cmd
    image_name := fun _ => Except.ok "debian:bullseye"
    pull_image := fun _ => Except.ok ()
    spec_from := fun _ _ => Except.ok 3
    run_floki_container := fun _ _ => Except.ok () }

/-- Collaborators where environment discovery fails. -/
def gatherFailOracle : Oracle Nat Nat :=
  { okOracle with
    gather := fun _ => Except.error (FlokiError.ConfigNotFound "floki.yaml") }

/-- Collaborators where config parsing fails. -/
def fromFileFailOracle : Oracle Nat Nat :=
  { okOracle with
    from_file := fun _ => Except.error (FlokiError.ConfigParse "bad yaml") }

/-- Collaborators where spec resolution fails. -/
def specFailOracle : Oracle Nat Nat :=
  { okOracle with
    spec_from := fun _ _ => Except.error (FlokiError.UnresolvedVariable "TERM") }

/-- Collaborators where the launched container exits with code 2, surfaced as
an error by container execution (modelled from the spec, section 4.6). -/
def containerFailOracle : Oracle Nat Nat :=
  { okOracle with
    run_floki_container := fun _ _ => Except.error (FlokiError.ContainerExit 2) }

/-- A logger initialisation that succeeds. -/
def quietLogger : LevelFilter → Option LoggerInitError := fun _ => none

/-- The default invocation: no subcommand. -/
def argsDefault : Cli :=
  { verbosity := 0, local_flag := false, config_file := none, subcommand := none }

/-- An invocation of the Pull subcommand. -/
def argsPull : Cli :=
  { argsDefault with subcommand := some Subcommand.Pull }

/-- An invocation of the Run subcommand with command `ls -l`. -/
def argsRunLs : Cli :=
  { argsDefault with subcommand := some (Subcommand.Run ["ls", "-l"]) }

/-! Helper lemmas characterising `run_floki_from_args` branch by branch. -/

/-- On any subcommand that consults the environment (everything except
Completion), a failing `Environment::gather` short-circuits the whole run. -/
theorem run_gather_error {C S : Type} (o : Oracle C S) (aenv : AppendEnv)
    (args : Cli) (e : FlokiError)
    (hns : ∀ sh, args.subcommand ≠ some (Subcommand.Completion sh))
    (hg : o.gather args.config_file = Except.error e) :
    run_floki_from_args o aenv args = (Except.error e, ([] : List (Event S))) := by
  cases hsub : args.subcommand with
  | none => simp [run_floki_from_args, hsub, hg]
  | some sub =>
    cases sub with
    | Pull => simp [run_floki_from_args, hsub, hg]
    | Run c => simp [run_floki_from_args, hsub, hg]
    | Completion sh => exact absurd hsub (hns sh)

/-- On any subcommand that loads the config, a failing
`FlokiConfig::from_file` short-circuits the whole run. -/
theorem run_from_file_error {C S : Type} (o : Oracle C S) (aenv : AppendEnv)
    (args : Cli) (env : ProjectEnvironment) (e : FlokiError)
    (hns : ∀ sh, args.subcommand ≠ some (Subcommand.Completion sh))
    (hg : o.gather args.config_file = Except.ok env)
    (hf : o.from_file env.config_file = Except.error e) :
    run_floki_from_args o aenv args = (Except.error e, ([] : List (Event S))) := by
  cases hsub : args.subcommand with
  | none => simp [run_floki_from_args, hsub, hg, hf]
  | some sub =>
    cases sub with
    | Pull => simp [run_floki_from_args, hsub, hg, hf]
    | Run c => simp [run_floki_from_args, hsub, hg, hf]
    | Completion sh => exact absurd hsub (hns sh)

/-- Default (no subcommand) invocation with all resolution stages succeeding:
the container runs the startup-augmented interactive shell. -/
theorem run_none_ok {C S : Type} (o : Oracle C S) (aenv : AppendEnv)
    (args : Cli) (env : ProjectEnvironment) (c : C) (s : S)
    (hsub : args.subcommand = none)
    (hg : o.gather args.config_file = Except.ok env)
    (hf : o.from_file env.config_file = Except.ok c)
    (hs : o.spec_from c env = Except.ok s) :
    run_floki_from_args o aenv args =
      (o.run_floki_container s (append_global_config aenv (o.inner_shell c)),
       [Event.BuiltSpec,
        Event.RanContainer s (append_global_config aenv (o.inner_shell c))]) := by
  simp [run_floki_from_args, hsub, hg, hf, hs]

/-- Run-subcommand invocation with all resolution stages succeeding: the
container runs the startup-augmented shell-wrapped caller command. -/
theorem run_run_ok {C S : Type} (o : Oracle C S) (aenv : AppendEnv)
    (args : Cli) (cmd : List String) (env : ProjectEnvironment) (c : C) (s : S)
    (hsub : args.subcommand = some (Subcommand.Run cmd))
    (hg : o.gather args.config_file = Except.ok env)
    (hf : o.from_file env.config_file = Except.ok c)
    (hs : o.spec_from c env = Except.ok s) :
    run_floki_from_args o aenv args =
      (o.run_floki_container s
        (append_global_config aenv (o.command_in_shell (o.inner_shell c) cmd)),
       [Event.BuiltSpec,
        Event.RanContainer s
          (append_global_config aenv
            (o.command_in_shell (o.inner_shell c) cmd))]) := by
  simp [run_floki_from_args, hsub, hg, hf, hs]

/-- A failing `FlokiSpec::from` short-circuits the run before the container
is launched, on both container-running branches. -/
theorem run_spec_error {C S : Type} (o : Oracle C S) (aenv : AppendEnv)
    (args : Cli) (env : ProjectEnvironment) (c : C) (e : FlokiError)
    (hsub : args.subcommand = none ∨ ∃ cmd, args.subcommand = some (Subcommand.Run cmd))
    (hg : o.gather args.config_file = Except.ok env)
    (hf : o.from_file env.config_file = Except.ok c)
    (hs : o.spec_from c env = Except.error e) :
    run_floki_from_args o aenv args =
      (Except.error e, ([Event.BuiltSpec] : List (Event S))) := by
  rcases hsub with hsub | ⟨cmd, hsub⟩
  · simp [run_floki_from_args, hsub, hg, hf, hs]
  · simp [run_floki_from_args, hsub, hg, hf, hs]

/-- The Pull subcommand with all stages succeeding pulls the configured image
and records only that effect. -/
theorem run_pull_ok {C S : Type} (o : Oracle C S) (aenv : AppendEnv)
    (args : Cli) (env : ProjectEnvironment) (c : C) (name : String)
    (hsub : args.subcommand = some Subcommand.Pull)
    (hg : o.gather args.config_file = Except.ok env)
    (hf : o.from_file env.config_file = Except.ok c)
    (hn : o.image_name c = Except.ok name) :
    run_floki_from_args o aenv args =
      (o.pull_image name, ([Event.PulledImage name] : List (Event S))) := by
  simp [run_floki_from_args, hsub, hg, hf, hn]

/-- A container run appears in the trace only after environment discovery,
config loading and spec resolution have all succeeded, and then only with the
spec those stages produced. -/
theorem ran_container_needs_stages {C S : Type} (o : Oracle C S)
    (aenv : AppendEnv) (args : Cli) (s : S) (cstr : String)
    (hmem : Event.RanContainer s cstr ∈ (run_floki_from_args o aenv args).2) :
    ∃ env c, o.gather args.config_file = Except.ok env ∧
      o.from_file env.config_file = Except.ok c ∧
      o.spec_from c env = Except.ok s := by
  cases hsub : args.subcommand with
  | none =>
    cases hg : o.gather args.config_file with
    | error e => simp [run_floki_from_args, hsub, hg] at hmem
    | ok env =>
      cases hf : o.from_file env.config_file with
      | error e => simp [run_floki_from_args, hsub, hg, hf] at hmem
      | ok c =>
        cases hs : o.spec_from c env with
        | error e => simp [run_floki_from_args, hsub, hg, hf, hs] at hmem
        | ok s2 =>
          refine ⟨env, c, rfl, hf, ?_⟩
          simp [run_floki_from_args, hsub, hg, hf, hs] at hmem
          rw [hs, hmem.1]
  | some sub =>
    cases sub with
    | Pull =>
      cases hg : o.gather args.config_file with
      | error e => simp [run_floki_from_args, hsub, hg] at hmem
      | ok env =>
        cases hf : o.from_file env.config_file with
        | error e => simp [run_floki_from_args, hsub, hg, hf] at hmem
        | ok c =>
          cases hn : o.image_name c with
          | error e => simp [run_floki_from_args, hsub, hg, hf, hn] at hmem
          | ok name => simp [run_floki_from_args, hsub, hg, hf, hn] at hmem
    | Run cmd =>
      cases hg : o.gather args.config_file with
      | error e => simp [run_floki_from_args, hsub, hg] at hmem
      | ok env =>
        cases hf : o.from_file env.config_file with
        | error e => simp [run_floki_from_args, hsub, hg, hf] at hmem
        | ok c =>
          cases hs : o.spec_from c env with
          | error e => simp [run_floki_from_args, hsub, hg, hf, hs] at hmem
          | ok s2 =>
            refine ⟨env, c, rfl, hf, ?_⟩
            simp [run_floki_from_args, hsub, hg, hf, hs] at hmem
            rw [hs, hmem.1]
    | Completion sh => simp [run_floki_from_args, hsub] at hmem

/-! Claim theorems. -/

/-- Claim C2: when `HOME` is set and `$HOME/.floki/startup.sh` exists and is
readable, `append_global_config` returns the startup script's trimmed
contents, followed by the success-chaining join " && ", followed by the
original command. -/
theorem append_global_config_prepends (aenv : AppendEnv)
    (command home contents : String)
    (hh : aenv.home = some home)
    (he : aenv.file_exists (home ++ "/.floki/startup.sh") = true)
    (hr : aenv.read_to_string (home ++ "/.floki/startup.sh") = some contents) :
    append_global_config aenv command = contents.trim ++ " && " ++ command := by
  simp [append_global_config, hh, he, hr]

/-- Witness for C2: the concrete startup script "  . /etc/profile \n" is
trimmed and prepended to "make". -/
theorem append_global_config_prepends_witness :
    append_global_config startupEnv "make" =
      ("  . /etc/profile \n").trim ++ " && " ++ "make" :=
  append_global_config_prepends startupEnv "make" "/home/u"
    "  . /etc/profile \n" rfl rfl rfl

/-- Claim C10: `append_global_config` is total (it returns a plain `String`)
and swallows every failure — with `HOME` unset, with the startup script
absent, or with the script unreadable, the command is returned unchanged. -/
theorem append_global_config_swallows_failures (aenv : AppendEnv)
    (command : String) :
    (aenv.home = none → append_global_config aenv command = command) ∧
    (∀ home, aenv.home = some home →
      aenv.file_exists (home ++ "/.floki/startup.sh") = false →
      append_global_config aenv command = command) ∧
    (∀ home, aenv.home = some home →
      aenv.file_exists (home ++ "/.floki/startup.sh") = true →
      aenv.read_to_string (home ++ "/.floki/startup.sh") = none →
      append_global_config aenv command = command) := by
  refine ⟨fun hh => by simp [append_global_config, hh],
    fun home hh he => by simp [append_global_config, hh, he],
    fun home hh he hr => by simp [append_global_config, hh, he, hr]⟩

/-- Witness for C10: the three failure cases at concrete process states all
leave "make" unchanged. -/
theorem append_global_config_swallows_failures_witness :
    append_global_config noHomeEnv "make" = "make" ∧
    append_global_config missingFileEnv "make" = "make" ∧
    append_global_config unreadableEnv "make" = "make" :=
  ⟨(append_global_config_swallows_failures noHomeEnv "make").1 rfl,
   (append_global_config_swallows_failures missingFileEnv "make").2.1
     "/home/u" rfl rfl,
   (append_global_config_swallows_failures unreadableEnv "make").2.2
     "/home/u" rfl rfl rfl⟩

/-- Claim C9: `configure_logging` maps verbosity 0, 1, 2, 3 to the levels
Warn, Info, Debug, Trace (handed to the logger initialisation), and returns
`InvalidVerbositySetting` carrying the offending verbosity exactly when the
verbosity exceeds 3. -/
theorem configure_logging_levels :
    (∀ init, configure_logging init 0 = finish_logging (init LevelFilter.Warn)) ∧
    (∀ init, configure_logging init 1 = finish_logging (init LevelFilter.Info)) ∧
    (∀ init, configure_logging init 2 = finish_logging (init LevelFilter.Debug)) ∧
    (∀ init, configure_logging init 3 = finish_logging (init LevelFilter.Trace)) ∧
    (∀ init v s, configure_logging init v =
      Except.error (FlokiError.InvalidVerbositySetting s) ↔ (3 < v ∧ s = v)) := by
  refine ⟨fun init => rfl, fun init => rfl, fun init => rfl, fun init => rfl, ?_⟩
  intro init v s
  match v with
  | 0 => cases h : init LevelFilter.Warn <;>
      simp [configure_logging, finish_logging, h]
  | 1 => cases h : init LevelFilter.Info <;>
      simp [configure_logging, finish_logging, h]
  | 2 => cases h : init LevelFilter.Debug <;>
      simp [configure_logging, finish_logging, h]
  | 3 => cases h : init LevelFilter.Trace <;>
      simp [configure_logging, finish_logging, h]
  | v + 4 =>
    simp only [configure_logging, Except.error.injEq,
      FlokiError.InvalidVerbositySetting.injEq]
    omega

/-- Witness for C9: verbosity 0 with a succeeding logger initialisation
succeeds, and verbosity 5 yields `InvalidVerbositySetting 5`. -/
theorem configure_logging_levels_witness :
    configure_logging quietLogger 0 = Except.ok () ∧
    configure_logging quietLogger 5 =
      Except.error (FlokiError.InvalidVerbositySetting 5) :=
  ⟨(configure_logging_levels.1 quietLogger).trans rfl,
   (configure_logging_levels.2.2.2.2 quietLogger 5 5).2 ⟨by omega, rfl⟩⟩

/-- Claim C1: an error in any stage from environment discovery through spec
resolution aborts the pipeline — the run's result is exactly that error, no
container-run effect occurs, and a container run can appear in the trace only
when every resolution stage succeeded. -/
theorem early_error_aborts {C S : Type} (o : Oracle C S) (aenv : AppendEnv)
    (args : Cli) :
    (∀ (s : S) (cstr : String),
      Event.RanContainer s cstr ∈ (run_floki_from_args o aenv args).2 →
      ∃ env c, o.gather args.config_file = Except.ok env ∧
        o.from_file env.config_file = Except.ok c ∧
        o.spec_from c env = Except.ok s) ∧
    (∀ e, (∀ sh, args.subcommand ≠ some (Subcommand.Completion sh)) →
      o.gather args.config_file = Except.error e →
      run_floki_from_args o aenv args = (Except.error e, [])) ∧
    (∀ e env, (∀ sh, args.subcommand ≠ some (Subcommand.Completion sh)) →
      o.gather args.config_file = Except.ok env →
      o.from_file env.config_file = Except.error e →
      run_floki_from_args o aenv args = (Except.error e, [])) ∧
    (∀ e env c,
      (args.subcommand = none ∨
        ∃ cmd, args.subcommand = some (Subcommand.Run cmd)) →
      o.gather args.config_file = Except.ok env →
      o.from_file env.config_file = Except.ok c →
      o.spec_from c env = Except.error e →
      run_floki_from_args o aenv args = (Except.error e, [Event.BuiltSpec])) :=
  ⟨fun s cstr hmem => ran_container_needs_stages o aenv args s cstr hmem,
   fun e hns hg => run_gather_error o aenv args e hns hg,
   fun e env hns hg hf => run_from_file_error o aenv args env e hns hg hf,
   fun e env c hsub hg hf hs => run_spec_error o aenv args env c e hsub hg hf hs⟩

/-- Witness for C1: with environment discovery failing on the default
invocation, the run surfaces `ConfigNotFound` and records no effect. -/
theorem early_error_aborts_witness :
    run_floki_from_args gatherFailOracle noHomeEnv argsDefault =
      (Except.error (FlokiError.ConfigNotFound "floki.yaml"), []) :=
  (early_error_aborts gatherFailOracle noHomeEnv argsDefault).2.1
    (FlokiError.ConfigNotFound "floki.yaml")
    (fun _ h => Option.noConfusion h) rfl

/-- Claim C4: with no subcommand the container command is the configured
shell's interactive invocation, with the Run subcommand it is the caller's
command wrapped in the shell invocation via `command_in_shell`, and in both
cases the startup-script prepend is applied to the result. -/
theorem inner_command_selection {C S : Type} (o : Oracle C S)
    (aenv : AppendEnv) (args : Cli) (env : ProjectEnvironment) (c : C)
    (hg : o.gather args.config_file = Except.ok env)
    (hf : o.from_file env.config_file = Except.ok c) :
    (args.subcommand = none →
      (∀ s cstr,
        Event.RanContainer s cstr ∈ (run_floki_from_args o aenv args).2 →
        cstr = append_global_config aenv (o.inner_shell c)) ∧
      (∀ s, o.spec_from c env = Except.ok s →
        Event.RanContainer s (append_global_config aenv (o.inner_shell c)) ∈
          (run_floki_from_args o aenv args).2)) ∧
    (∀ cmd, args.subcommand = some (Subcommand.Run cmd) →
      (∀ s cstr,
        Event.RanContainer s cstr ∈ (run_floki_from_args o aenv args).2 →
        cstr = append_global_config aenv
          (o.command_in_shell (o.inner_shell c) cmd)) ∧
      (∀ s, o.spec_from c env = Except.ok s →
        Event.RanContainer s
          (append_global_config aenv
            (o.command_in_shell (o.inner_shell c) cmd)) ∈
          (run_floki_from_args o aenv args).2)) := by
  constructor
  · intro hsub
    constructor
    · intro s cstr hmem
      cases hs : o.spec_from c env with
      | error e =>
        rw [run_spec_error o aenv args env c e (Or.inl hsub) hg hf hs] at hmem
        simp at hmem
      | ok s2 =>
        rw [run_none_ok o aenv args env c s2 hsub hg hf hs] at hmem
        simp at hmem
        exact hmem.2
    · intro s hs
      rw [run_none_ok o aenv args env c s hsub hg hf hs]
      simp
  · intro cmd hsub
    constructor
    · intro s cstr hmem
      cases hs : o.spec_from c env with
      | error e =>
        rw [run_spec_error o aenv args env c e (Or.inr ⟨cmd, hsub⟩) hg hf hs]
          at hmem
        simp at hmem
      | ok s2 =>
        rw [run_run_ok o aenv args cmd env c s2 hsub hg hf hs] at hmem
        simp at hmem
        exact hmem.2
    · intro s hs
      rw [run_run_ok o aenv args cmd env c s hsub hg hf hs]
      simp

/-- Witness for C4: the default invocation with the all-succeeding
collaborators runs the container on the startup-augmented interactive
shell. -/
theorem inner_command_selection_witness :
    Event.RanContainer 3 (append_global_config startupEnv "bash") ∈
      (run_floki_from_args okOracle startupEnv argsDefault).2 :=
  ((inner_command_selection okOracle startupEnv argsDefault
      { config_file := "/proj/floki.yaml", floki_root := "/proj"
        current_directory := "/proj/sub" } 7 rfl rfl).1 rfl).2 3 rfl

/-- Claim C5: the Pull subcommand resolves the environment and config and
pulls the configured image by name; it builds no launch specification and
runs no container. -/
theorem pull_runs_no_container {C S : Type} (o : Oracle C S)
    (aenv : AppendEnv) (args : Cli)
    (hsub : args.subcommand = some Subcommand.Pull) :
    (∀ (s : S) (cstr : String),
      Event.RanContainer s cstr ∉ (run_floki_from_args o aenv args).2) ∧
    (Event.BuiltSpec ∉ (run_floki_from_args o aenv args).2) ∧
    (∀ env c name, o.gather args.config_file = Except.ok env →
      o.from_file env.config_file = Except.ok c →
      o.image_name c = Except.ok name →
      run_floki_from_args o aenv args =
        (o.pull_image name, [Event.PulledImage name])) := by
  refine ⟨?_, ?_,
    fun env c name hg hf hn => run_pull_ok o aenv args env c name hsub hg hf hn⟩
  · intro s cstr hmem
    cases hg : o.gather args.config_file with
    | error e => simp [run_floki_from_args, hsub, hg] at hmem
    | ok env =>
      cases hf : o.from_file env.config_file with
      | error e => simp [run_floki_from_args, hsub, hg, hf] at hmem
      | ok c =>
        cases hn : o.image_name c with
        | error e => simp [run_floki_from_args, hsub, hg, hf, hn] at hmem
        | ok name => simp [run_floki_from_args, hsub, hg, hf, hn] at hmem
  · intro hmem
    cases hg : o.gather args.config_file with
    | error e => simp [run_floki_from_args, hsub, hg] at hmem
    | ok env =>
      cases hf : o.from_file env.config_file with
      | error e => simp [run_floki_from_args, hsub, hg, hf] at hmem
      | ok c =>
        cases hn : o.image_name c with
        | error e => simp [run_floki_from_args, hsub, hg, hf, hn] at hmem
        | ok name => simp [run_floki_from_args, hsub, hg, hf, hn] at hmem

/-- Witness for C5: the Pull subcommand with all-succeeding collaborators
pulls "debian:bullseye" and that is its only effect. -/
theorem pull_runs_no_container_witness :
    run_floki_from_args okOracle noHomeEnv argsPull =
      (okOracle.pull_image "debian:bullseye",
       [Event.PulledImage "debian:bullseye"]) :=
  (pull_runs_no_container okOracle noHomeEnv argsPull rfl).2.2
    { config_file := "/proj/floki.yaml", floki_root := "/proj"
      current_directory := "/proj/sub" } 7 "debian:bullseye" rfl rfl rfl

/-- Counterexample to claim C3 as stated: a configuration failure (config
file not found) exits the process with status 1, but an invocation whose
container fails (modelled from the spec, section 4.6, as container execution
surfacing the container's non-zero exit code 2) also exits with status 1 —
the configuration-failure status is neither distinct from the status of the
container-failure path nor is the container's own code propagated. -/
theorem config_exit_code_not_distinct :
    (floki_main gatherFailOracle quietLogger noHomeEnv argsDefault).1 = 1 ∧
    (floki_main containerFailOracle quietLogger noHomeEnv argsDefault).1 = 1 ∧
    (floki_main containerFailOracle quietLogger noHomeEnv argsDefault).1 ≠ 2 :=
  by
  refine ⟨rfl, rfl, ?_⟩
  have h1 : (floki_main containerFailOracle quietLogger noHomeEnv
      argsDefault).1 = 1 := rfl
  omega

/-- Claim C3 (amended): an invocation failing with a configuration or
resolution error before container execution exits with the non-zero status 1
and prints exactly one diagnostic line; status 1 is however shared by every
failing invocation, not a code distinct from the container-failure path. -/
theorem config_error_exits_one {C S : Type} (o : Oracle C S)
    (init : LevelFilter → Option LoggerInitError) (aenv : AppendEnv)
    (args : Cli) (e : FlokiError)
    (hlog : configure_logging init args.verbosity = Except.ok ())
    (hns : ∀ sh, args.subcommand ≠ some (Subcommand.Completion sh))
    (hearly : o.gather args.config_file = Except.error e ∨
      (∃ env, o.gather args.config_file = Except.ok env ∧
        o.from_file env.config_file = Except.error e) ∨
      (∃ env c,
        (args.subcommand = none ∨
          ∃ cmd, args.subcommand = some (Subcommand.Run cmd)) ∧
        o.gather args.config_file = Except.ok env ∧
        o.from_file env.config_file = Except.ok c ∧
        o.spec_from c env = Except.error e)) :
    floki_main o init aenv args = (1, 1) := by
  unfold floki_main
  rw [hlog]
  rcases hearly with hg | ⟨env, hg, hf⟩ | ⟨env, c, hsub, hg, hf, hs⟩
  · rw [run_gather_error o aenv args e hns hg]
  · rw [run_from_file_error o aenv args env e hns hg hf]
  · rw [run_spec_error o aenv args env c e hsub hg hf hs]

/-- Witness for the amended C3: a missing config file on the default
invocation exits with status 1 and one diagnostic line. -/
theorem config_error_exits_one_witness :
    floki_main gatherFailOracle quietLogger noHomeEnv argsDefault = (1, 1) :=
  config_error_exits_one gatherFailOracle quietLogger noHomeEnv argsDefault
    (FlokiError.ConfigNotFound "floki.yaml") rfl
    (fun _ h => Option.noConfusion h) (Or.inl rfl)

/-- Claim C6: two volume declarations sharing a container path collide —
when the later declaration lacks the switch flag, resolution fails with
`VolumeConflictError` naming the colliding container path; when the later
declaration has switch enabled, resolution succeeds and the later mount is
the one kept. -/
theorem volume_collision_switch (root : String) (v1 v2 : RawVolume)
    (hc : v1.container_path = v2.container_path) :
    (v2.switch = false →
      resolve_volumes root [v1, v2] =
        Except.error (FlokiError.VolumeConflict v2.container_path)) ∧
    (v2.switch = true →
      resolve_volumes root [v1, v2] =
        Except.ok [resolve_volume root v2]) := by
  constructor
  · intro hsw
    simp [resolve_volumes, resolve_volumes_go, insert_volume, resolve_volume,
      hc, hsw]
  · intro hsw
    simp [resolve_volumes, resolve_volumes_go, insert_volume, resolve_volume,
      hc, hsw]

/-- Witness for C6: at container path "/mnt", a later switch-enabled
declaration wins, and a later switch-free declaration is a conflict. -/
theorem volume_collision_switch_witness :
    resolve_volumes "/proj"
        [⟨"a", "/mnt", false, false⟩, ⟨"b", "/mnt", false, true⟩] =
      Except.ok [resolve_volume "/proj" ⟨"b", "/mnt", false, true⟩] ∧
    resolve_volumes "/proj"
        [⟨"a", "/mnt", false, false⟩, ⟨"c", "/mnt", false, false⟩] =
      Except.error (FlokiError.VolumeConflict "/mnt") :=
  ⟨(volume_collision_switch "/proj" ⟨"a", "/mnt", false, false⟩
      ⟨"b", "/mnt", false, true⟩ rfl).2 rfl,
   (volume_collision_switch "/proj" ⟨"a", "/mnt", false, false⟩
      ⟨"c", "/mnt", false, false⟩ rfl).1 rfl⟩

/-- Claim C7: the pure image validation rejects a config specifying both a
pull reference and a build context with a validation error, and every
accepted config resolves to exactly one of pull-by-reference or
build-from-context. -/
theorem validate_image_exclusive :
    (∀ r p b, r.pull_reference = some p → r.build_context = some b →
      validate_image r = Except.error (FlokiError.ConfigValidation
        "config specifies both a pull image and a build context")) ∧
    (∀ r img, validate_image r = Except.ok img →
      (∃ p, img = ImageSpec.pull p ∧ r.pull_reference = some p ∧
        r.build_context = none) ∨
      (∃ b, img = ImageSpec.build b ∧ r.build_context = some b ∧
        r.pull_reference = none)) := by
  constructor
  · rintro ⟨pr, bc⟩ p b hp hb
    simp only at hp hb
    subst hp
    subst hb
    rfl
  · rintro ⟨pr, bc⟩ img hok
    match pr, bc with
    | some p, none =>
      left
      refine ⟨p, ?_, rfl, rfl⟩
      have : Except.ok (ImageSpec.pull p) = Except.ok img := hok
      exact (Except.ok.injEq _ _ ▸ this).symm
    | none, some b =>
      right
      refine ⟨b, ?_, rfl, rfl⟩
      have : Except.ok (ImageSpec.build b) = Except.ok img := hok
      exact (Except.ok.injEq _ _ ▸ this).symm
    | some p, some b => exact absurd hok (by simp [validate_image])
    | none, none => exact absurd hok (by simp [validate_image])

/-- Witness for C7: a config with both "debian:bullseye" and build context
"./build" is rejected. -/
theorem validate_image_exclusive_witness :
    validate_image ⟨some "debian:bullseye", some "./build"⟩ =
      Except.error (FlokiError.ConfigValidation
        "config specifies both a pull image and a build context") :=
  validate_image_exclusive.1 ⟨some "debian:bullseye", some "./build"⟩
    "debian:bullseye" "./build" rfl rfl

/-- Claim C8: volume resolution reads only the project root of the
environment — two environments with the same root and the same declarations
resolve identically, whatever the invoking working directory. -/
theorem volume_resolution_cwd_independent (env1 env2 : ProjectEnvironment)
    (vols : List RawVolume) (h : env1.floki_root = env2.floki_root) :
    resolve_volumes_env env1 vols = resolve_volumes_env env2 vols := by
  unfold resolve_volumes_env
  rw [h]

/-- Witness for C8: the same relative declaration resolves identically from
two different working directories under the same project root. -/
theorem volume_resolution_cwd_independent_witness :
    resolve_volumes_env
        ⟨"/proj/floki.yaml", "/proj", "/proj/deep/nested"⟩
        [⟨"cache", "/mnt/cache", false, false⟩] =
      resolve_volumes_env
        ⟨"/proj/floki.yaml", "/proj", "/tmp/elsewhere"⟩
        [⟨"cache", "/mnt/cache", false, false⟩] :=
  volume_resolution_cwd_independent
    ⟨"/proj/floki.yaml", "/proj", "/proj/deep/nested"⟩
    ⟨"/proj/floki.yaml", "/proj", "/tmp/elsewhere"⟩
    [⟨"cache", "/mnt/cache", false, false⟩] rfl

end Floki
